import Mathlib

/-!
Verification of the surfaces.js geometry pipeline.

Shallow embedding of the `Surface` class (src/unnamed/part_000, the main
source file, together with the older `src/src/surfaces.js`) and of the
pipeline components it drives.  JavaScript numbers are modelled as real
numbers.  The helper modules `./util/compute`, `./util/generate-vis-data`
and the `two-rotations` package are not present under src/ (only their
call sites are), so those components are modelled from the spec; each such
definition carries a doc comment saying so.
-/

open Real Matrix

namespace Surfaces

/-! ## Rotation matrices (§4.2) -/

/-- Modelled from the spec: the `two-rotations` package's `generateMatrix`
is not under src/; §4.2 specifies the result as the pitch rotation applied
after the yaw rotation (yaw about the vertical axis, pitch about the
horizontal axis).  The matrix is written out entrywise, as a rotation
library would produce it; `generateMatrix_eq_comp` below proves it equal
to the composite of the two single-axis rotations. -/
noncomputable def generateMatrix (yaw pitch : ℝ) : Matrix (Fin 3) (Fin 3) ℝ :=
  !![Real.cos yaw,                        0,              Real.sin yaw;
     Real.sin pitch * Real.sin yaw,       Real.cos pitch, -(Real.sin pitch * Real.cos yaw);
     -(Real.cos pitch * Real.sin yaw),    Real.sin pitch, Real.cos pitch * Real.cos yaw]

/-- Modelled from the spec: rotation about the vertical ("up") axis by
the yaw angle (axis index 1 is the model's up axis). -/
noncomputable def yawRotation (yaw : ℝ) : Matrix (Fin 3) (Fin 3) ℝ :=
  !![Real.cos yaw,    0, Real.sin yaw;
     0,               1, 0;
     -(Real.sin yaw), 0, Real.cos yaw]

/-- Modelled from the spec: rotation about the horizontal axis by the
pitch angle. -/
noncomputable def pitchRotation (pitch : ℝ) : Matrix (Fin 3) (Fin 3) ℝ :=
  !![1, 0,               0;
     0, Real.cos pitch,  -(Real.sin pitch);
     0, Real.sin pitch,  Real.cos pitch]

theorem generateMatrix_eq_comp (yaw pitch : ℝ) :
    generateMatrix yaw pitch = pitchRotation pitch * yawRotation yaw := by
  ext i j
  fin_cases i <;> fin_cases j <;>
    simp [generateMatrix, pitchRotation, yawRotation, Matrix.mul_apply,
      Fin.sum_univ_three]

theorem yawRotation_transpose (yaw : ℝ) :
    (yawRotation yaw)ᵀ =
      !![Real.cos yaw, 0, -(Real.sin yaw);
         0,            1, 0;
         Real.sin yaw, 0, Real.cos yaw] := by
  ext i j
  fin_cases i <;> fin_cases j <;> rfl

theorem pitchRotation_transpose (pitch : ℝ) :
    (pitchRotation pitch)ᵀ =
      !![1, 0,                  0;
         0, Real.cos pitch,     Real.sin pitch;
         0, -(Real.sin pitch),  Real.cos pitch] := by
  ext i j
  fin_cases i <;> fin_cases j <;> rfl

theorem yawRotation_orthonormal (yaw : ℝ) :
    (yawRotation yaw)ᵀ * yawRotation yaw = 1 := by
  rw [yawRotation_transpose]
  unfold yawRotation
  rw [Matrix.mul_fin_three, Matrix.one_fin_three]
  ext i j
  fin_cases i <;> fin_cases j <;> simp [Matrix.vecHead, Matrix.vecTail] <;>
    nlinarith [Real.sin_sq_add_cos_sq yaw]

theorem pitchRotation_orthonormal (pitch : ℝ) :
    (pitchRotation pitch)ᵀ * pitchRotation pitch = 1 := by
  rw [pitchRotation_transpose]
  unfold pitchRotation
  rw [Matrix.mul_fin_three, Matrix.one_fin_three]
  ext i j
  fin_cases i <;> fin_cases j <;> simp [Matrix.vecHead, Matrix.vecTail] <;>
    nlinarith [Real.sin_sq_add_cos_sq pitch]

theorem yawRotation_det (yaw : ℝ) : (yawRotation yaw).det = 1 := by
  unfold yawRotation
  rw [Matrix.det_fin_three]
  simp
  nlinarith [Real.sin_sq_add_cos_sq yaw]

theorem pitchRotation_det (pitch : ℝ) : (pitchRotation pitch).det = 1 := by
  unfold pitchRotation
  rw [Matrix.det_fin_three]
  simp
  nlinarith [Real.sin_sq_add_cos_sq pitch]

theorem generateMatrix_orthonormal (yaw pitch : ℝ) :
    (generateMatrix yaw pitch)ᵀ * generateMatrix yaw pitch = 1 := by
  rw [generateMatrix_eq_comp, Matrix.transpose_mul, Matrix.mul_assoc,
    ← Matrix.mul_assoc (pitchRotation pitch)ᵀ, pitchRotation_orthonormal,
    Matrix.one_mul, yawRotation_orthonormal]

theorem generateMatrix_det (yaw pitch : ℝ) :
    (generateMatrix yaw pitch).det = 1 := by
  rw [generateMatrix_eq_comp, Matrix.det_mul, pitchRotation_det, yawRotation_det,
    one_mul]

theorem generateMatrix_zero_zero : generateMatrix 0 0 = 1 := by
  unfold generateMatrix
  rw [Matrix.one_fin_three]
  norm_num

/-! ## DOM elements and element creation (src/unnamed/part_000, _createElement) -/

/-- The element kinds the library can draw on. -/
inductive DomElement
  | canvas
  | svg
deriving DecidableEq

/-- The nodeName (lowercased) of an element, as read by _ensureElement
and _setType. -/
def DomElement.nodeName : DomElement → String
  | .canvas => "canvas"
  | .svg => "svg"

/-- Surface._createElement: an svg or canvas element for the given tag
name; any other tag name throws. -/
def createElement (tagName : String) : Except String DomElement :=
  if tagName = "svg" then .ok .svg
  else if tagName = "canvas" then .ok .canvas
  else .error "The element must be a canvas or svg."

/-! ## The Surface constructor and orient (src/unnamed/part_000) -/

/-- The default fn, Surface.spacetimeOrigin.  In the source it returns the
constant nested array [[[0]]] whatever its arguments; modelled as the
constant-zero scalar field generator fn(t, x, y) = 0. -/
def spacetimeOrigin : ℝ → ℝ → ℝ → ℝ := fun _ _ _ => 0

/-- The options object passed to the Surface constructor; only the keys of
Surface.surfaceOptions are picked out, and a JS key that is absent is
modelled as none. -/
structure SurfaceOptions where
  tagName : Option String := none
  fn : Option (ℝ → ℝ → ℝ → ℝ) := none
  el : Option DomElement := none
  width : Option ℝ := none
  height : Option ℝ := none
  colorFn : Option (ℝ → String) := none
  strokeColorFn : Option (ℝ → String) := none
  zoom : Option ℝ := none
  yaw : Option ℝ := none
  pitch : Option ℝ := none
  xyDomain : Option (ℝ × ℝ) := none
  xyResolution : Option ℝ := none
  xyScale : Option ℝ := none
  yDomain : Option (ℝ × ℝ) := none
  yResolution : Option ℝ := none
  yScale : Option ℝ := none
  xDomain : Option (ℝ × ℝ) := none
  xResolution : Option ℝ := none
  xScale : Option ℝ := none
  range : Option (ℝ × ℝ) := none
  zScale : Option ℝ := none
  maxPitch : Option ℝ := none

/-- The configuration state a Surface holds after the constructor's
_.defaults call and _generateRotation, before element creation. -/
structure SurfaceState where
  tagName : String
  width : ℝ
  height : ℝ
  zoom : ℝ
  yaw : ℝ
  pitch : ℝ
  maxPitch : ℝ
  colorFn : ℝ → String
  strokeColorFn : ℝ → String
  fn : ℝ → ℝ → ℝ → ℝ
  xyDomain : ℝ × ℝ
  xyResolution : ℝ
  xyScale : ℝ
  range : ℝ × ℝ
  zScale : ℝ
  xDomain : Option (ℝ × ℝ)
  yDomain : Option (ℝ × ℝ)
  xResolution : Option ℝ
  yResolution : Option ℝ
  xScale : Option ℝ
  yScale : Option ℝ
  rotationMatrix : Matrix (Fin 3) (Fin 3) ℝ

/-- A constructed Surface: the configuration state plus the DOM element
from _ensureElement and the _type string from _setType. -/
structure Surface extends SurfaceState where
  el : DomElement
  type : String

/-- The defaults-merging part of the constructor:
_.defaults(this, _.pick(options, Surface.surfaceOptions), {...}) followed
by _generateRotation().  Note: no validation of any kind is performed
here, and the pitch is not clamped. -/
noncomputable def buildState (o : SurfaceOptions) : SurfaceState where
  tagName := o.tagName.getD "canvas"
  width := o.width.getD 300
  height := o.height.getD 300
  zoom := o.zoom.getD 1
  yaw := o.yaw.getD 0.5
  pitch := o.pitch.getD 0.5
  maxPitch := o.maxPitch.getD (Real.pi / 2)
  colorFn := o.colorFn.getD fun _ => "#333"
  strokeColorFn := o.strokeColorFn.getD fun _ => "rgba(0,0,0,0.4)"
  fn := o.fn.getD spacetimeOrigin
  xyDomain := o.xyDomain.getD (-10, 10)
  xyResolution := o.xyResolution.getD 1
  xyScale := o.xyScale.getD 300
  range := o.range.getD (-10, 10)
  zScale := o.zScale.getD 1
  xDomain := o.xDomain
  yDomain := o.yDomain
  xResolution := o.xResolution
  yResolution := o.yResolution
  xScale := o.xScale
  yScale := o.yScale
  rotationMatrix := generateMatrix (o.yaw.getD 0.5) (o.pitch.getD 0.5)

/-- The whole constructor: defaults and rotation matrix, then
_ensureElement (which calls _createElement when no el was supplied and can
throw) and _setType. -/
noncomputable def mkSurface (o : SurfaceOptions) : Except String Surface :=
  let s := buildState o
  match o.el with
  | some el => .ok { toSurfaceState := s, el := el, type := el.nodeName }
  | none =>
      (createElement s.tagName).map fun el =>
        { toSurfaceState := s, el := el, type := el.nodeName }

/-- The argument of Surface.orient; _.pick(orientation, ["yaw", "pitch"])
keeps only the keys that are present. -/
structure Orientation where
  yaw : Option ℝ := none
  pitch : Option ℝ := none

/-- Surface.orient: merge the supplied yaw/pitch over the current ones,
clamp the pitch to [-maxPitch, maxPitch], regenerate the rotation matrix,
and return the surface. -/
noncomputable def orient (s : Surface) (o : Orientation) : Surface :=
  let yaw := o.yaw.getD s.yaw
  let rawPitch := o.pitch.getD s.pitch
  let pitch := max (-s.maxPitch) (min s.maxPitch rawPitch)
  { s with
      yaw := yaw
      pitch := pitch
      rotationMatrix := generateMatrix yaw pitch }

/-! ## Domain sampling (spec-modelled: ./util/compute is not under src/) -/

/-- Modelled from the spec: ./util/compute is not under src/ (only its call
site, Surface._computeData).  §3: grid point count per axis is
floor((max-min)/resolution) + 1. -/
noncomputable def gridCount (lo hi res : ℝ) : ℕ := ⌊(hi - lo) / res⌋₊ + 1

/-- Modelled from the spec: the sample positions along one axis; the k-th
sample is lo + k * res (truncation, not rescaling, when the range does not
divide evenly). -/
noncomputable def samplePositions (lo hi res : ℝ) : List ℝ :=
  (List.range (gridCount lo hi res)).map fun k : ℕ => lo + (k : ℝ) * res

/-- Modelled from the spec (§4.1): one time slice of the scalar field,
fn evaluated at every (x, y) grid vertex, x outer, y inner. -/
noncomputable def sampleGrid (fn : ℝ → ℝ → ℝ → ℝ) (t : ℝ)
    (xd : ℝ × ℝ) (xres : ℝ) (yd : ℝ × ℝ) (yres : ℝ) : List (List ℝ) :=
  (samplePositions xd.1 xd.2 xres).map fun x =>
    (samplePositions yd.1 yd.2 yres).map fun y => fn t x y

/-- Modelled from the spec (§4.1): ./util/compute evaluates fn over the
Cartesian product of the time samples and the x/y grid, time outer. -/
noncomputable def compute (fn : ℝ → ℝ → ℝ → ℝ) (tFrom tTo tRes : ℝ)
    (xd : ℝ × ℝ) (xres : ℝ) (yd : ℝ × ℝ) (yres : ℝ) : List (List (List ℝ)) :=
  (samplePositions tFrom tTo tRes).map fun t => sampleGrid fn t xd xres yd yres

/-! ## Projection (spec-modelled: ./util/generate-vis-data is not under src/) -/

/-- The inputs of the §4.3 projector. -/
structure ProjParams where
  width : ℝ
  height : ℝ
  zoom : ℝ
  xScale : ℝ
  yScale : ℝ
  zScale : ℝ
  rotationMatrix : Matrix (Fin 3) (Fin 3) ℝ

/-- Modelled from the spec (§4.3): scale the 3D sample point per axis,
rotate it with the rotation matrix, discard the third component, and map
to screen space with the vertical axis flipped. -/
noncomputable def projectPoint (p : ProjParams) (x y z : ℝ) : ℝ × ℝ :=
  let v := p.rotationMatrix.mulVec ![x * p.xScale, y * p.yScale, z * p.zScale]
  (p.width / 2 + p.zoom * v 0, p.height / 2 - p.zoom * v 1)

/-! ## Quad assembly (spec-modelled: ./util/generate-vis-data is not under src/) -/

/-- One drawable grid-cell face: four ordered corners plus the averaged
scalar value used for shading. -/
structure Quad (P V : Type) where
  moveTo : P
  pointOne : P
  pointTwo : P
  pointThree : P
  avg : V

/-- Modelled from the spec (§4.4): the quad assembler over an nx × ny grid
of points with their source scalar values; one quad per cell (i, j),
emitted in row-major order.  The legacy behavior emits every cell's quad
unconditionally — the spec's recommended non-finite skip policy is stated
there as "not present in the legacy behavior". -/
def assembleQuads {P V : Type} (avg4 : V → V → V → V → V) (nx ny : ℕ)
    (pt : ℕ → ℕ → P) (val : ℕ → ℕ → V) : List (Quad P V) :=
  (List.range (nx - 1)).flatMap fun i =>
    (List.range (ny - 1)).map fun j =>
      { moveTo := pt i j
        pointOne := pt (i + 1) j
        pointTwo := pt (i + 1) (j + 1)
        pointThree := pt i (j + 1)
        avg := avg4 (val i j) (val (i + 1) j) (val (i + 1) (j + 1)) (val i (j + 1)) }

/-- Modelled from the spec (§4.4): the arithmetic mean of the four corner
samples. -/
noncomputable def avgScalar (a b c d : ℝ) : ℝ := (a + b + c + d) / 4

/-- The parameters Surface.render passes to generateVisData. -/
structure VisDataParams where
  data : List (List ℝ)
  height : ℝ
  width : ℝ
  range : ℝ × ℝ
  zScale : ℝ
  pitch : ℝ
  xScale : ℝ
  yScale : ℝ
  xResolution : ℝ
  yResolution : ℝ
  xDomain : ℝ × ℝ
  yDomain : ℝ × ℝ
  zoom : ℝ
  rotationMatrix : Matrix (Fin 3) (Fin 3) ℝ

/-- Modelled from the spec: ./util/generate-vis-data is not under src/
(only its call site in Surface.render); per §2 and §4.3-4.4 it is the
projector followed by the quad assembler.  The range and pitch entries of
the call-site parameter object play no role in the spec's projection or
assembly contract and are unused. -/
noncomputable def generateVisData (p : VisDataParams) : List (Quad (ℝ × ℝ) ℝ) :=
  let nx := p.data.length
  let ny := (p.data.headD []).length
  let xPos := fun i : ℕ => p.xDomain.1 + i * p.xResolution
  let yPos := fun j : ℕ => p.yDomain.1 + j * p.yResolution
  let val := fun i j : ℕ => (p.data.getD i []).getD j 0
  let pp : ProjParams :=
    { width := p.width, height := p.height, zoom := p.zoom,
      xScale := p.xScale, yScale := p.yScale, zScale := p.zScale,
      rotationMatrix := p.rotationMatrix }
  assembleQuads avgScalar nx ny
    (fun i j => projectPoint pp (xPos i) (yPos j) (val i j)) val

/-! ## Surface.render (src/unnamed/part_000) -/

/-- JavaScript a || b for an optionally present numeric property: an
absent key and 0 are both falsy. -/
noncomputable def jsNumOr (a : Option ℝ) (b : ℝ) : ℝ :=
  match a with
  | none => b
  | some v => if v = 0 then b else v

/-- The options object of Surface.render. -/
structure RenderOptions where
  t : Option ℝ := none

/-- Surface.render: time defaults to 0 (var time = options.t || 0), the
field is sampled at from = to = time with time resolution 1 and the [0]
slice taken, generateVisData turns it into quads with the current rotation
matrix, the quads are painted, and the surface itself is returned for
chaining.  Painting targets the DOM, so the model returns the surface
together with the visData handed to the painting step. -/
noncomputable def render (s : Surface) (o : RenderOptions) :
    Surface × List (Quad (ℝ × ℝ) ℝ) :=
  let time := jsNumOr o.t 0
  let data :=
    (compute s.fn time time 1
      (s.xDomain.getD s.xyDomain) (jsNumOr s.xResolution s.xyResolution)
      (s.yDomain.getD s.xyDomain) (jsNumOr s.yResolution s.xyResolution)).headD []
  let visData := generateVisData
    { data := data
      height := s.height
      width := s.width
      range := s.range
      zScale := s.zScale
      pitch := s.pitch
      xScale := jsNumOr s.xScale s.xyScale
      yScale := jsNumOr s.yScale s.xyScale
      xResolution := jsNumOr s.xResolution s.xyResolution
      yResolution := jsNumOr s.yResolution s.xyResolution
      xDomain := s.xDomain.getD s.xyDomain
      yDomain := s.yDomain.getD s.xyDomain
      zoom := s.zoom
      rotationMatrix := s.rotationMatrix }
  (s, visData)

/-! ## Helper lemmas on the quad assembler -/

theorem flatMap_range_map_length {α : Type} (n m : ℕ) (f : ℕ → ℕ → α) :
    ((List.range n).flatMap fun i => (List.range m).map (f i)).length = n * m := by
  induction n with
  | zero => simp
  | succ n ih =>
      rw [List.range_succ, List.flatMap_append, List.length_append, ih]
      simp [Nat.succ_mul]

theorem flatMap_range_map_getElem {α : Type} (n m : ℕ) (f : ℕ → ℕ → α)
    (i j : ℕ) (hi : i < n) (hj : j < m) :
    ((List.range n).flatMap fun i => (List.range m).map (f i))[i * m + j]? =
      some (f i j) := by
  induction n with
  | zero => omega
  | succ n ih =>
      rw [List.range_succ, List.flatMap_append]
      rcases Nat.lt_or_ge i n with h | h
      · have hlen : i * m + j <
            ((List.range n).flatMap fun i => (List.range m).map (f i)).length := by
          rw [flatMap_range_map_length]
          calc i * m + j < i * m + m := by omega
            _ = (i + 1) * m := by ring
            _ ≤ n * m := Nat.mul_le_mul_right m h
        rw [List.getElem?_append_left hlen]
        exact ih h
      · obtain rfl : i = n := by omega
        have hlen : ((List.range i).flatMap fun k => (List.range m).map (f k)).length ≤
            i * m + j := by
          rw [flatMap_range_map_length]
          omega
        rw [List.getElem?_append_right hlen, flatMap_range_map_length]
        simp [hj]

theorem assembleQuads_length {P V : Type} (avg4 : V → V → V → V → V)
    (nx ny : ℕ) (pt : ℕ → ℕ → P) (val : ℕ → ℕ → V) :
    (assembleQuads avg4 nx ny pt val).length = (nx - 1) * (ny - 1) :=
  flatMap_range_map_length (nx - 1) (ny - 1) _

theorem assembleQuads_getElem {P V : Type} (avg4 : V → V → V → V → V)
    (nx ny : ℕ) (pt : ℕ → ℕ → P) (val : ℕ → ℕ → V) (i j : ℕ)
    (hi : i < nx - 1) (hj : j < ny - 1) :
    (assembleQuads avg4 nx ny pt val)[i * (ny - 1) + j]? =
      some { moveTo := pt i j
             pointOne := pt (i + 1) j
             pointTwo := pt (i + 1) (j + 1)
             pointThree := pt i (j + 1)
             avg := avg4 (val i j) (val (i + 1) j) (val (i + 1) (j + 1))
               (val i (j + 1)) } :=
  flatMap_range_map_getElem (nx - 1) (ny - 1) _ i j hi hj

/-! ## A concrete surface used by witnesses -/

/-- A fully explicit Surface value (the state a default-constructed canvas
surface holds). -/
noncomputable def sampleSurface : Surface where
  tagName := "canvas"
  width := 300
  height := 300
  zoom := 1
  yaw := 0.5
  pitch := 0.5
  maxPitch := Real.pi / 2
  colorFn := fun _ => "#333"
  strokeColorFn := fun _ => "rgba(0,0,0,0.4)"
  fn := spacetimeOrigin
  xyDomain := (-10, 10)
  xyResolution := 1
  xyScale := 300
  range := (-10, 10)
  zScale := 1
  xDomain := none
  yDomain := none
  xResolution := none
  yResolution := none
  xScale := none
  yScale := none
  rotationMatrix := generateMatrix 0.5 0.5
  el := DomElement.canvas
  type := "canvas"

/-! ## Claim theorems -/

/-- C4: the rotation-matrix builder at yaw = 0, pitch = 0 is exactly the
identity, and for all yaw and pitch the matrix is orthonormal (Mᵀ·M = I,
det M = 1) and equals the pitch rotation composed after the yaw rotation. -/
theorem rotationBuilder_identity_orthonormal_comp (yaw pitch : ℝ) :
    generateMatrix 0 0 = 1 ∧
    (generateMatrix yaw pitch)ᵀ * generateMatrix yaw pitch = 1 ∧
    (generateMatrix yaw pitch).det = 1 ∧
    generateMatrix yaw pitch = pitchRotation pitch * yawRotation yaw :=
  ⟨generateMatrix_zero_zero, generateMatrix_orthonormal yaw pitch,
   generateMatrix_det yaw pitch, generateMatrix_eq_comp yaw pitch⟩

/-- C3: orient stores the requested pitch clamped to [-maxPitch, maxPitch]
and then recomputes the rotation matrix from the stored orientation; in
particular, with maxPitch = π/2, orient with pitch 10 stores exactly π/2. -/
theorem orient_clamp_spec :
    (∀ (s : Surface) (o : Orientation) (p : ℝ), o.pitch = some p →
        (orient s o).pitch = max (-s.maxPitch) (min s.maxPitch p) ∧
        (orient s o).rotationMatrix =
          generateMatrix (orient s o).yaw (orient s o).pitch) ∧
    (∀ s : Surface, s.maxPitch = Real.pi / 2 →
        (orient s { pitch := some 10 }).pitch = Real.pi / 2) := by
  constructor
  · intro s o p hp
    constructor
    · simp [orient, hp]
    · simp [orient]
  · intro s hmax
    have h1 : min (Real.pi / 2) (10 : ℝ) = Real.pi / 2 := by
      apply min_eq_left
      nlinarith [Real.pi_le_four]
    have h2 : max (-(Real.pi / 2)) (Real.pi / 2) = Real.pi / 2 := by
      apply max_eq_right
      nlinarith [Real.pi_pos]
    simp [orient, hmax, h1, h2]

/-- Witness for C3: a concrete surface with maxPitch = π/2, oriented with
pitch 10, stores pitch π/2. -/
theorem orient_clamp_spec_witness :
    (orient sampleSurface { pitch := some 10 }).pitch =
      max (-sampleSurface.maxPitch) (min sampleSurface.maxPitch 10) ∧
    (orient sampleSurface { pitch := some 10 }).pitch = Real.pi / 2 :=
  ⟨(orient_clamp_spec.1 sampleSurface { pitch := some 10 } 10 rfl).1,
   orient_clamp_spec.2 sampleSurface rfl⟩

/-- C10: every orient call leaves |pitch| ≤ maxPitch, even when the
orientation argument omits pitch; the constructor performs no such clamp —
built with pitch 10 and maxPitch π/2, the state keeps pitch 10 and the
rotation matrix generated from 10. -/
theorem orient_invariant_constructor_no_clamp :
    (∀ (s : Surface) (o : Orientation), 0 ≤ s.maxPitch →
        |(orient s o).pitch| ≤ s.maxPitch) ∧
    (∀ o : SurfaceOptions, o.pitch = some 10 → o.maxPitch = some (Real.pi / 2) →
        (buildState o).pitch = 10 ∧
        (buildState o).maxPitch < (buildState o).pitch ∧
        (buildState o).rotationMatrix = generateMatrix (o.yaw.getD 0.5) 10) := by
  constructor
  · intro s o h
    have : (orient s o).pitch =
        max (-s.maxPitch) (min s.maxPitch (o.pitch.getD s.pitch)) := by
      simp [orient]
    rw [this]
    refine abs_le.mpr ⟨le_max_left _ _, max_le (neg_le_self h) (min_le_left _ _)⟩
  · intro o h10 hmax
    refine ⟨?_, ?_, ?_⟩
    · simp [buildState, h10]
    · simp [buildState, h10, hmax]
      nlinarith [Real.pi_le_four]
    · simp [buildState, h10]

/-- Witness for C10: the clamp holds after an orient with no pitch on a
concrete surface, and a concrete out-of-range construction keeps pitch 10. -/
theorem orient_invariant_constructor_no_clamp_witness :
    |(orient sampleSurface {}).pitch| ≤ sampleSurface.maxPitch ∧
    (buildState { pitch := some 10, maxPitch := some (Real.pi / 2) }).pitch = 10 := by
  constructor
  · apply orient_invariant_constructor_no_clamp.1 sampleSurface {}
    show (0 : ℝ) ≤ Real.pi / 2
    positivity
  · exact (orient_invariant_constructor_no_clamp.2
      { pitch := some 10, maxPitch := some (Real.pi / 2) } rfl rfl).1

/-- C9: constructing a surface whose requested tag is neither canvas nor
svg fails immediately: _createElement throws, and the constructor
surfaces that error. -/
theorem unsupported_tag_throws (o : SurfaceOptions) (tag : String)
    (hel : o.el = none) (htag : o.tagName = some tag)
    (h1 : tag ≠ "svg") (h2 : tag ≠ "canvas") :
    createElement tag = Except.error "The element must be a canvas or svg." ∧
    mkSurface o = Except.error "The element must be a canvas or svg." := by
  have hce : createElement tag =
      Except.error "The element must be a canvas or svg." := by
    unfold createElement
    rw [if_neg h1, if_neg h2]
  refine ⟨hce, ?_⟩
  have hbt : (buildState o).tagName = tag := by
    simp [buildState, htag]
  simp only [mkSurface, hel]
  rw [hbt, hce]
  rfl

/-- Witness for C9: tag name div is rejected. -/
theorem unsupported_tag_throws_witness :
    mkSurface { tagName := some "div" } =
      Except.error "The element must be a canvas or svg." :=
  (unsupported_tag_throws { tagName := some "div" } "div" rfl rfl
    (by decide) (by decide)).2

/-- Counterexample for C7: the default shared xy scale is 300, not 1. -/
theorem default_scale_not_one :
    (buildState {}).xyScale = 300 ∧ (300 : ℝ) ≠ 1 :=
  ⟨rfl, by norm_num⟩

/-- C7 amended: a Surface constructed with no options gets width = 300,
height = 300, zoom = 1, yaw = 0.5, pitch = 0.5, maxPitch = π/2, shared
domain [-10, 10], shared resolution 1, shared xy scale 300 (not 1),
zScale 1, and the constant-zero fn (Surface.spacetimeOrigin). -/
theorem constructor_defaults :
    (buildState {}).width = 300 ∧
    (buildState {}).height = 300 ∧
    (buildState {}).zoom = 1 ∧
    (buildState {}).yaw = 0.5 ∧
    (buildState {}).pitch = 0.5 ∧
    (buildState {}).maxPitch = Real.pi / 2 ∧
    (buildState {}).xyDomain = (-10, 10) ∧
    (buildState {}).xyResolution = 1 ∧
    (buildState {}).xyScale = 300 ∧
    (buildState {}).zScale = 1 ∧
    (buildState {}).fn = spacetimeOrigin ∧
    (buildState {}).tagName = "canvas" :=
  ⟨rfl, rfl, rfl, rfl, rfl, rfl, rfl, rfl, rfl, rfl, rfl, rfl⟩

/-- Counterexample for C5: a zero resolution together with a min ≥ max
domain is stored unvalidated and construction still succeeds — no
InvalidConfig is raised at construction. -/
theorem invalid_config_accepted :
    (buildState { xyResolution := some 0, xyDomain := some (10, -10) }).xyResolution
      = 0 ∧
    (buildState { xyResolution := some 0, xyDomain := some (10, -10) }).xyDomain
      = (10, -10) ∧
    ∃ s, mkSurface { xyResolution := some 0, xyDomain := some (10, -10) }
      = Except.ok s :=
  ⟨rfl, rfl, ⟨_, rfl⟩⟩

/-- C5 amended: the constructor performs no configuration validation — any
resolution (including non-positive) and any domain (including min ≥ max)
are stored as-is and construction succeeds whenever the element step does;
configuration errors are not detected at construction. -/
theorem constructor_no_validation (o : SurfaceOptions) (r : ℝ) (d : ℝ × ℝ)
    (hr : o.xyResolution = some r) (hd : o.xyDomain = some d)
    (hel : o.el = none) (htag : o.tagName = none) :
    (buildState o).xyResolution = r ∧ (buildState o).xyDomain = d ∧
    ∃ s, mkSurface o = Except.ok s := by
  refine ⟨by simp [buildState, hr], by simp [buildState, hd], ?_⟩
  have hbt : (buildState o).tagName = "canvas" := by
    simp [buildState, htag]
  refine ⟨{ toSurfaceState := buildState o, el := DomElement.canvas,
            type := DomElement.canvas.nodeName }, ?_⟩
  simp only [mkSurface, hel]
  rw [hbt]
  rfl

/-- Witness for C5: the amended theorem applied to the concrete invalid
configuration. -/
theorem constructor_no_validation_witness :
    (buildState { xyResolution := some (-1), xyDomain := some (5, 5) }).xyResolution
      = -1 ∧
    ∃ s, mkSurface { xyResolution := some (-1), xyDomain := some (5, 5) }
      = Except.ok s := by
  have h := constructor_no_validation
    { xyResolution := some (-1), xyDomain := some (5, 5) } (-1) (5, 5)
    rfl rfl rfl rfl
  exact ⟨h.1, h.2.2⟩

/-- C2: for an nx × ny grid (nx, ny ≥ 2) the assembler emits exactly
(nx-1)·(ny-1) quads; the quad at row-major position i·(ny-1)+j has corners
point(i,j), point(i+1,j), point(i+1,j+1), point(i,j+1) and the average of
the four corner samples; corner values 1, 2, 3, 4 average to exactly 2.5. -/
theorem quad_assembly_spec (nx ny : ℕ) (pt : ℕ → ℕ → ℝ × ℝ)
    (val : ℕ → ℕ → ℝ) (_hnx : 2 ≤ nx) (_hny : 2 ≤ ny) :
    (assembleQuads avgScalar nx ny pt val).length = (nx - 1) * (ny - 1) ∧
    (∀ i j, i < nx - 1 → j < ny - 1 →
      (assembleQuads avgScalar nx ny pt val)[i * (ny - 1) + j]? =
        some { moveTo := pt i j
               pointOne := pt (i + 1) j
               pointTwo := pt (i + 1) (j + 1)
               pointThree := pt i (j + 1)
               avg := avgScalar (val i j) (val (i + 1) j)
                 (val (i + 1) (j + 1)) (val i (j + 1)) }) ∧
    avgScalar 1 2 3 4 = 2.5 := by
  refine ⟨assembleQuads_length _ _ _ _ _,
    fun i j hi hj => assembleQuads_getElem _ _ _ _ _ i j hi hj, ?_⟩
  unfold avgScalar
  norm_num

/-- Witness for C2 on a concrete 3 × 3 grid. -/
theorem quad_assembly_spec_witness :
    (assembleQuads avgScalar 3 3 (fun i j => ((i : ℝ), (j : ℝ)))
        (fun i j => (i : ℝ) + j)).length = (3 - 1) * (3 - 1) ∧
    (∃ q, (assembleQuads avgScalar 3 3 (fun i j => ((i : ℝ), (j : ℝ)))
        (fun i j => (i : ℝ) + j))[1 * (3 - 1) + 0]? = some q) ∧
    avgScalar 1 2 3 4 = 2.5 := by
  have h := quad_assembly_spec 3 3 (fun i j => ((i : ℝ), (j : ℝ)))
    (fun i j => (i : ℝ) + j) (by norm_num) (by norm_num)
  exact ⟨h.1, ⟨_, h.2.1 1 0 (by norm_num) (by norm_num)⟩, h.2.2⟩

/-! ## Non-finite samples (C6): none models a NaN/Infinity JS number -/

/-- Averaging of possibly non-finite samples: a non-finite corner makes
the average non-finite, as JS float arithmetic propagates NaN. -/
noncomputable def avgOpt (a b c d : Option ℝ) : Option ℝ :=
  match a, b, c, d with
  | some a, some b, some c, some d => some ((a + b + c + d) / 4)
  | _, _, _, _ => none

/-- A fully finite 3 × 3 sample grid. -/
noncomputable def finVal (i j : ℕ) : Option ℝ := some ((i : ℝ) + j)

/-- The same grid with exactly one non-finite (NaN) sample, at (1, 1). -/
noncomputable def nanVal (i j : ℕ) : Option ℝ :=
  if i = 1 ∧ j = 1 then none else some ((i : ℝ) + j)

/-- Projected points of the finite grid. -/
noncomputable def finPt (i j : ℕ) : Option ℝ × Option ℝ := (finVal i j, finVal i j)

/-- Projected points of the NaN-containing grid: the non-finite sample
propagates into the projected coordinates. -/
noncomputable def nanPt (i j : ℕ) : Option ℝ × Option ℝ := (nanVal i j, nanVal i j)

/-- Counterexample for C6: the legacy assembler emits the full 4 quads for
the 3 × 3 grid with one NaN sample — the same count as the fully finite
grid, not one fewer, and there is no skipped-quad count. -/
theorem nan_skip_counterexample :
    nanVal 1 1 = none ∧
    (assembleQuads avgOpt 3 3 nanPt nanVal).length = 4 ∧
    (assembleQuads avgOpt 3 3 finPt finVal).length = 4 ∧
    ¬ ((assembleQuads avgOpt 3 3 nanPt nanVal).length =
        (assembleQuads avgOpt 3 3 finPt finVal).length - 1) := by
  refine ⟨by simp [nanVal], ?_, ?_, ?_⟩
  · rw [assembleQuads_length]
  · rw [assembleQuads_length]
  · rw [assembleQuads_length, assembleQuads_length]
    norm_num

/-- C6 amended: the legacy assembler never skips — it emits exactly
(nx-1)·(ny-1) quads whatever the point and sample values, so a grid with
non-finite entries yields the same quad count as any other grid of the
same shape, and no skip count is produced. -/
theorem no_skip_all_quads_emitted {P V : Type} (avg4 : V → V → V → V → V)
    (nx ny : ℕ) (pt pt2 : ℕ → ℕ → P) (val val2 : ℕ → ℕ → V) :
    (assembleQuads avg4 nx ny pt val).length = (nx - 1) * (ny - 1) ∧
    (assembleQuads avg4 nx ny pt val).length =
      (assembleQuads avg4 nx ny pt2 val2).length :=
  ⟨assembleQuads_length avg4 nx ny pt val,
   (assembleQuads_length avg4 nx ny pt val).trans
     (assembleQuads_length avg4 nx ny pt2 val2).symm⟩

/-- C1: the projected screen position of every grid vertex is
screenX = width/2 + zoom·x' and screenY = height/2 − zoom·y' with (x', y',
z') the rotated scaled point (vertical axis flipped); with yaw = 0,
pitch = 0 and z = 0 the projection is the exact linear map
screenX = width/2 + zoom·xScale·x, screenY = height/2 − zoom·yScale·y. -/
theorem projection_formula (p : ProjParams) (x y z : ℝ) :
    projectPoint p x y z =
      (p.width / 2 + p.zoom *
         (p.rotationMatrix.mulVec ![x * p.xScale, y * p.yScale, z * p.zScale]) 0,
       p.height / 2 - p.zoom *
         (p.rotationMatrix.mulVec ![x * p.xScale, y * p.yScale, z * p.zScale]) 1) ∧
    (p.rotationMatrix = generateMatrix 0 0 →
      projectPoint p x y 0 =
        (p.width / 2 + p.zoom * (p.xScale * x),
         p.height / 2 - p.zoom * (p.yScale * y))) := by
  refine ⟨rfl, fun h => ?_⟩
  unfold projectPoint
  rw [h, generateMatrix_zero_zero, Matrix.one_mulVec]
  simp only [Matrix.cons_val_zero, Matrix.cons_val_one, Matrix.head_cons,
    Prod.mk.injEq]
  constructor <;> ring

/-- Witness for C1: a concrete top-down configuration projects to the
exact linear image. -/
theorem projection_formula_witness :
    projectPoint
      { width := 300, height := 300, zoom := 2, xScale := 3, yScale := 5,
        zScale := 1, rotationMatrix := generateMatrix 0 0 } 7 11 0 =
      (192, 40) := by
  have h := (projection_formula
    { width := 300, height := 300, zoom := 2, xScale := 3, yScale := 5,
      zScale := 1, rotationMatrix := generateMatrix 0 0 } 7 11 0).2 rfl
  rw [h]
  norm_num

theorem samplePositions_single (t : ℝ) : samplePositions t t 1 = [t] := by
  have hgc : gridCount t t 1 = 1 := by
    unfold gridCount
    norm_num
  unfold samplePositions
  rw [hgc]
  norm_num [List.range_succ]

/-- C8: render with the time key absent uses time 0; for every requested
time the field is sampled at exactly that single time (from = to yields
the one-element sample list), the current rotation matrix is used for the
projection, and the surface instance itself is returned for chaining. -/
theorem render_spec (s : Surface) (o : RenderOptions) (t : ℝ) :
    jsNumOr (none : Option ℝ) 0 = 0 ∧
    samplePositions t t 1 = [t] ∧
    (render s o).1 = s ∧
    (render s o).2 = generateVisData
      { data := sampleGrid s.fn (jsNumOr o.t 0)
          (s.xDomain.getD s.xyDomain) (jsNumOr s.xResolution s.xyResolution)
          (s.yDomain.getD s.xyDomain) (jsNumOr s.yResolution s.xyResolution)
        height := s.height
        width := s.width
        range := s.range
        zScale := s.zScale
        pitch := s.pitch
        xScale := jsNumOr s.xScale s.xyScale
        yScale := jsNumOr s.yScale s.xyScale
        xResolution := jsNumOr s.xResolution s.xyResolution
        yResolution := jsNumOr s.yResolution s.xyResolution
        xDomain := s.xDomain.getD s.xyDomain
        yDomain := s.yDomain.getD s.xyDomain
        zoom := s.zoom
        rotationMatrix := s.rotationMatrix } := by
  refine ⟨rfl, samplePositions_single t, rfl, ?_⟩
  simp only [render, compute, samplePositions_single, List.map_cons,
    List.map_nil, List.headD_cons]

end Surfaces
